import Mathlib

/-!
Shallow embedding of `pkg/otbuiltin/builtin.go` from the ostree-go repository:
a Go binding over the native ostree engine (repository open, revision
resolution, tombstone-commit config, pull with options).

The binding's own logic (argument checks, option serialization, error
wrapping, config read/modify/write) is translated directly from the Go
source.  The native engine (libostree / GLib) is an external collaborator:
its behaviour is abstracted as explicit function parameters, and where a
claim depends on the engine's contract it is modelled from the spec (§6)
in clearly marked definitions.  Every binding function additionally returns
the list of engine calls it performed, so side-effect claims are statable.
-/

namespace OstreeGo

/-- A GLib `GError`: error domain, numeric code and human-readable message. -/
structure GError where
  domain : String
  code : Nat
  message : String
deriving DecidableEq, Repr

/-- The result of Go's `runtime.Caller(1)` when it succeeds: the source file
and line of the call site.  `generateError` receives `none` when
`runtime.Caller` reports `ok = false`. -/
structure CallerInfo where
  file : String
  line : Nat
deriving DecidableEq, Repr

/-- A Go `error` value is modelled by its message text; a Go `nil` error is
`(none : Option GoErr)` at use sites. -/
abbrev GoErr := String

/-- Modelled from the spec: `glib.ConvertGError` (pkg/glibobject, outside
src/) converts a GLib error to a Go error; per §4.4 the adapter "preserves
the underlying message text verbatim", so the conversion yields the
message. -/
def ConvertGError (e : GError) : GoErr := e.message

/-- `generateError` wraps a GLib error into a Go one (builtin.go:174-185):
a nil `GError` yields the `"nil GError"` contract-violation error; otherwise
the converted error is prefixed with `file:line - ` when the caller's source
location is available. -/
def generateError (err : Option GError) (caller : Option CallerInfo) : GoErr :=
  match err with
  | none => "nil GError"
  | some e =>
    let goErr := ConvertGError e
    match caller with
    | some c => c.file ++ ":" ++ toString c.line ++ " - " ++ goErr
    | none => goErr

/-- `gobool` (builtin.go:193-195): a C `gboolean` is nonzero iff true; the
`gboolean` is already modelled as `Bool`, so this is the identity. -/
def gobool (b : Bool) : Bool := b

/-- `C.GoString` applied to a possibly-NULL `char*`: `GoString(nil) = ""`. -/
def goString (s : Option String) : String := s.getD ""

/-- The Go struct `Repo` (builtin.go:22-24): wraps an `unsafe.Pointer` to the
native `OstreeRepo` (`none` models a nil pointer field).  A Go `*Repo` value
is `Option Repo`, with `none` for a nil pointer. -/
structure Repo where
  ptr : Option Nat
deriving DecidableEq, Repr

/-- `(*Repo).isInitialized` (builtin.go:31-36): false iff the receiver is nil
or its pointer field is nil. -/
def isInitialized (r : Option Repo) : Bool :=
  match r with
  | none => false
  | some rr =>
    match rr.ptr with
    | none => false
    | some _ => true

/-- `(*Repo).native` (builtin.go:39-44): nil when the repo is not
initialized, otherwise the wrapped native pointer. -/
def Repo.native (r : Option Repo) : Option Nat :=
  if isInitialized r = false then none
  else
    match r with
    | some rr => rr.ptr
    | none => none

/-- `repoFromNative` (builtin.go:47-53): nil native pointer gives a nil
`*Repo`, otherwise a `Repo` wrapping the pointer. -/
def repoFromNative (p : Option Nat) : Option Repo :=
  match p with
  | none => none
  | some n => some ⟨some n⟩

/-- One invocation of the engine's `ostree_repo_resolve_rev`: the native repo
pointer passed (possibly NULL), the refspec, and the allow-noent flag. -/
structure ResolveCall where
  repoPtr : Option Nat
  refspec : String
  allowNoent : Bool
deriving DecidableEq, Repr

/-- Engine behaviour for `ostree_repo_resolve_rev`: the `gboolean` return,
the `out_rev` string (NULL as `none`), and the out `GError` (NULL as
`none`). -/
abbrev ResolveEngine := ResolveCall → Bool × Option String × Option GError

/-- `(*Repo).ResolveRev` (builtin.go:55-71): calls the engine once with the
receiver's native pointer; on a false return wraps the out-error via
`generateError`, otherwise returns the `GoString` of the out-rev.  The second
component is the list of engine resolve calls performed. -/
def ResolveRev (engine : ResolveEngine) (repo : Option Repo) (refspec : String)
    (allowNoent : Bool) (caller : Option CallerInfo) :
    (String × Option GoErr) × List ResolveCall :=
  let call : ResolveCall := ⟨Repo.native repo, refspec, allowNoent⟩
  let res := engine call
  if gobool res.1 = false then (("", some (generateError res.2.2 caller)), [call])
  else ((goString res.2.1, none), [call])

/-- `PullOptions` (builtin.go:95-98). -/
structure PullOptions where
  OverrideRemoteName : String
  Refs : List String
deriving DecidableEq, Repr

/-- A GVariant value as used in the pull options bag: a string
(`g_variant_new_take_string`) or a string array (`g_variant_new_strv`). -/
inductive GVariant where
  | vstr : String → GVariant
  | vstrv : List String → GVariant
deriving DecidableEq, Repr

/-- The `a{sv}` options bag built by `PullWithOptions` (builtin.go:106-134):
an `override-remote-name` entry is added iff `OverrideRemoteName` is
non-empty, then a `refs` entry (the refs in order) iff `Refs` is non-empty. -/
def serializePullOptions (options : PullOptions) : List (String × GVariant) :=
  (if options.OverrideRemoteName ≠ "" then
    [("override-remote-name", GVariant.vstr options.OverrideRemoteName)]
   else []) ++
  (if options.Refs.length ≠ 0 then
    [("refs", GVariant.vstrv options.Refs)]
   else [])

/-- `AsyncProgress` (builtin.go:197-199): wraps a glib Object pointer. -/
structure AsyncProgress where
  ptr : Nat
deriving DecidableEq, Repr

/-- `(*AsyncProgress).native` (builtin.go:201-206): a nil receiver maps to a
NULL native progress pointer. -/
def AsyncProgress.native (a : Option AsyncProgress) : Option Nat :=
  match a with
  | none => none
  | some ap => some ap.ptr

/-- One invocation of the engine's `ostree_repo_pull_with_options`: native
repo pointer, remote name, serialized options bag, native progress pointer
and cancellable pointer as passed by the binding. -/
structure PullEngineCall where
  repoPtr : Option Nat
  remoteName : String
  options : List (String × GVariant)
  progressPtr : Option Nat
  cancellable : Option Nat
deriving DecidableEq, Repr

/-- Engine behaviour for `ostree_repo_pull_with_options`: the `gboolean`
return and the out `GError`. -/
abbrev PullEngine := PullEngineCall → Bool × Option GError

/-- `(*Repo).PullWithOptions` (builtin.go:100-143): serializes the options
into the `a{sv}` bag, calls the engine once with the receiver's native
pointer, and wraps a false return's error via `generateError`.  The second
component is the list of engine pull calls performed. -/
def PullWithOptions (engine : PullEngine) (repo : Option Repo) (remoteName : String)
    (options : PullOptions) (progress : Option AsyncProgress) (cancellable : Option Nat)
    (caller : Option CallerInfo) :
    Option GoErr × List PullEngineCall :=
  let coptions := serializePullOptions options
  let call : PullEngineCall :=
    ⟨Repo.native repo, remoteName, coptions, AsyncProgress.native progress, cancellable⟩
  let res := engine call
  if gobool res.1 = false then (some (generateError res.2 caller), [call])
  else (none, [call])

/-- The repository's persisted key-file configuration: `(group, key) ↦ bool`
entries, first entry for a key wins (a set prepends, modelling overwrite). -/
abbrev GKeyFile := List ((String × String) × Bool)

/-- Modelled from the spec (§6 `GetConfigValue`, GLib `g_key_file_get_boolean`
with a NULL error out-argument, outside src/): returns the stored boolean,
and FALSE when the key is absent. -/
def g_key_file_get_boolean (kf : GKeyFile) (group key : String) : Bool :=
  match kf.lookup (group, key) with
  | some b => b
  | none => false

/-- Modelled from the spec (§6 `SetConfigValue`, GLib `g_key_file_set_boolean`,
outside src/): stores the boolean under `(group, key)`. -/
def g_key_file_set_boolean (kf : GKeyFile) (group key : String) (v : Bool) : GKeyFile :=
  ((group, key), v) :: kf

/-- `(*Repo).enableTombstoneCommits` (builtin.go:149-171): fails with the
NotInitialized error on an unopened handle; otherwise reads
`core.tombstone-commits` from the config and, only when it is not already
true, sets it to true and writes the config via the engine
(`ostree_repo_write_config`, whose success is the `writeOk` parameter and
whose failure diagnostic is `writeErr`).  Returns the Go error, the persisted
configuration afterwards (unchanged when the write fails), and the number of
config writes attempted. -/
def enableTombstoneCommits (r : Option Repo) (config : GKeyFile)
    (writeOk : Bool) (writeErr : GError) (caller : Option CallerInfo) :
    Option GoErr × GKeyFile × Nat :=
  if isInitialized r = false then (some "repo not initialized", config, 0)
  else
    let tombstoneCommits := g_key_file_get_boolean config "core" "tombstone-commits"
    if tombstoneCommits = false then
      let config2 := g_key_file_set_boolean config "core" "tombstone-commits" true
      if writeOk then (none, config2, 1)
      else (some (generateError (some writeErr) caller), config, 1)
    else (none, config, 0)

/-- The engine side of `OpenRepo`: the native pointer produced by
`ostree_repo_new`, the `gboolean` result of `ostree_repo_open`, and the
latter's out `GError`. -/
structure OpenEngineResult where
  newRepoPtr : Option Nat
  openOk : Bool
  openErr : Option GError
deriving Repr

/-- Engine behaviour for opening a repository at a path. -/
abbrev OpenEngine := String → OpenEngineResult

/-- `OpenRepo` (builtin.go:74-93): an empty path fails immediately with the
`"empty path"` (InvalidArgument) error, before any engine call; otherwise the
engine opens the path once, a false `ostree_repo_open` return is wrapped via
`generateError`, and on success the handle from `repoFromNative` is
returned.  The `Nat` counts engine open invocations. -/
def OpenRepo (engine : OpenEngine) (path : String) (caller : Option CallerInfo) :
    (Option Repo × Option GoErr) × Nat :=
  if path = "" then ((none, some "empty path"), 0)
  else
    let res := engine path
    let repo := repoFromNative res.newRepoPtr
    if gobool res.openOk = false then ((none, some (generateError res.openErr caller)), 1)
    else ((repo, none), 1)

/-- Modelled from the spec (§4.1, §6 `ResolveRev`): the engine resolves a
refspec against a ref store; a hit returns the checksum, a miss returns
success with a NULL out-rev when noent is allowed and otherwise fails with
the engine's not-found diagnostic `missErr`. -/
def specResolveEngine (store : String → Option String) (missErr : GError) : ResolveEngine :=
  fun call =>
    match store call.refspec with
    | some rev => (true, some rev, none)
    | none =>
      if call.allowNoent then (true, none, none)
      else (false, none, some missErr)

/-- Modelled from the spec (§4.3, §7): the GLib diagnostic the engine reports
when the cancellation token is triggered before the pull completes
(`G_IO_ERROR_CANCELLED`). -/
def cancelledGError : GError := ⟨"g-io-error-quark", 19, "Operation was cancelled"⟩

/-- Modelled from the spec (§4.3, §6 `Pull`): the engine pull fails with the
cancelled diagnostic when the token was triggered before completion;
otherwise it succeeds, or fails with the genuine transfer diagnostic. -/
def specPullEngine (cancelTriggered : Bool) (transferFailure : Option GError) : PullEngine :=
  fun _ =>
    if cancelTriggered then (false, some cancelledGError)
    else
      match transferFailure with
      | none => (true, none)
      | some e => (false, some e)

/-- A concrete resolve-engine fixture used by witnesses. -/
def testResolveEngine : ResolveEngine := fun _ => (true, some "abc123", none)

/-- A concrete pull-engine fixture used by witnesses. -/
def testPullEngine : PullEngine := fun _ => (true, none)

/-- A concrete engine diagnostic fixture used by witnesses. -/
def testGError : GError := ⟨"ostree", 1, "engine failure"⟩

/-- C5: `OpenRepo` on the empty path returns no handle and the
`"empty path"` (InvalidArgument) error, performing zero engine open calls —
for every engine and caller location. -/
theorem openRepo_empty_path (eng : OpenEngine) (c : Option CallerInfo) :
    OpenRepo eng "" c = ((none, some "empty path"), 0) := rfl

/-- C6: `generateError` applied to a nil foreign error yields the
`"nil GError"` contract-violation error, and as a Go error value it is
non-nil (never a success result). -/
theorem generateError_nil_is_error (c : Option CallerInfo) :
    generateError none c = "nil GError" ∧
      some (generateError none c) ≠ (none : Option GoErr) :=
  ⟨rfl, by simp⟩

/-- C7: `generateError` on a non-nil foreign error produces exactly the
underlying message prefixed with `file:line - ` when the call site is
available and the bare underlying message when it is not; in both cases the
underlying message appears verbatim (as a suffix). -/
theorem generateError_preserves_message (e : GError) (c : Option CallerInfo) :
    (generateError (some e) c =
      match c with
      | some ci => ci.file ++ ":" ++ toString ci.line ++ " - " ++ e.message
      | none => e.message) ∧
    ∃ pre, generateError (some e) c = pre ++ e.message := by
  cases c with
  | none => exact ⟨rfl, "", by simp [generateError, ConvertGError]⟩
  | some ci =>
    refine ⟨rfl, ci.file ++ ":" ++ toString ci.line ++ " - ", ?_⟩
    simp [generateError, ConvertGError, String.append_assoc]

/-- C2: the options bag `PullWithOptions` passes to the engine is exactly
`serializePullOptions options`, which contains an `override-remote-name`
entry iff `OverrideRemoteName` is non-empty (with that string as value) and a
`refs` entry iff `Refs` is non-empty (with exactly that sequence as value);
in particular `⟨"", ["a","b"]⟩` yields only the refs entry and `⟨"", []⟩`
yields the empty bag. -/
theorem pull_options_serialization (eng : PullEngine) (repo : Option Repo)
    (remote : String) (opts : PullOptions) (prog : Option AsyncProgress)
    (cancel : Option Nat) (c : Option CallerInfo) :
    (PullWithOptions eng repo remote opts prog cancel c).2 =
      [⟨Repo.native repo, remote, serializePullOptions opts,
        AsyncProgress.native prog, cancel⟩] ∧
    ((serializePullOptions opts).lookup "override-remote-name" =
      if opts.OverrideRemoteName ≠ "" then some (GVariant.vstr opts.OverrideRemoteName)
      else none) ∧
    ((serializePullOptions opts).lookup "refs" =
      if opts.Refs ≠ [] then some (GVariant.vstrv opts.Refs) else none) ∧
    serializePullOptions ⟨"", ["a", "b"]⟩ = [("refs", GVariant.vstrv ["a", "b"])] ∧
    serializePullOptions ⟨"", []⟩ = [] := by
  refine ⟨?_, ?_, ?_, by decide, by decide⟩
  · unfold PullWithOptions
    dsimp only
    split <;> rfl
  · by_cases h1 : opts.OverrideRemoteName = "" <;>
      by_cases h2 : opts.Refs = [] <;>
        simp [serializePullOptions, h1, h2, List.lookup, List.length_eq_zero]
  · by_cases h1 : opts.OverrideRemoteName = "" <;>
      by_cases h2 : opts.Refs = [] <;>
        simp [serializePullOptions, h1, h2, List.lookup, List.length_eq_zero]

/-- C1 counterexample: `ResolveRev` on an unopened (nil) handle still
performs an engine resolve call — its engine-call list is nonempty — so the
claim that every operation on an unopened handle returns NotInitialized with
no engine call is false. -/
theorem resolveRev_uninitialized_calls_engine :
    (ResolveRev (fun _ => (false, none, none)) none "main" true none).2 ≠ [] := by
  decide

/-- C1 (amended): on an unopened handle, `enableTombstoneCommits` returns the
NotInitialized error (`"repo not initialized"`) with the configuration
unchanged and zero config writes; `ResolveRev` and `PullWithOptions` do not
check initialization — each performs its single engine call with a NULL
native repo pointer. -/
theorem uninitialized_handle_behavior (r : Option Repo) (reng : ResolveEngine)
    (peng : PullEngine) (refspec : String) (an : Bool) (config : GKeyFile)
    (wok : Bool) (werr : GError) (c : Option CallerInfo) (remote : String)
    (opts : PullOptions) (prog : Option AsyncProgress) (cancel : Option Nat)
    (hr : isInitialized r = false) :
    enableTombstoneCommits r config wok werr c =
      (some "repo not initialized", config, 0) ∧
    (ResolveRev reng r refspec an c).2 = [⟨none, refspec, an⟩] ∧
    (PullWithOptions peng r remote opts prog cancel c).2 =
      [⟨none, remote, serializePullOptions opts, AsyncProgress.native prog, cancel⟩] := by
  have hn : Repo.native r = none := by simp [Repo.native, hr]
  refine ⟨?_, ?_, ?_⟩
  · simp [enableTombstoneCommits, hr]
  · unfold ResolveRev
    rw [hn]
    dsimp only
    split <;> rfl
  · unfold PullWithOptions
    rw [hn]
    dsimp only
    split <;> rfl

/-- C1 (amended) witness at concrete inputs: the nil handle. -/
theorem uninitialized_handle_behavior_witness :
    isInitialized none = false ∧
    (enableTombstoneCommits none [] true testGError none =
        (some "repo not initialized", [], 0) ∧
      (ResolveRev testResolveEngine none "main" true none).2 =
        [⟨none, "main", true⟩] ∧
      (PullWithOptions testPullEngine none "origin" ⟨"", []⟩ none none none).2 =
        [⟨none, "origin", serializePullOptions ⟨"", []⟩,
          AsyncProgress.native none, none⟩]) :=
  ⟨by decide, uninitialized_handle_behavior none testResolveEngine testPullEngine
    "main" true [] true testGError none "origin" ⟨"", []⟩ none none (by decide)⟩

/-- Reading back a key just stored in the key file yields the stored value. -/
theorem g_key_file_get_set (kf : GKeyFile) (group key : String) (v : Bool) :
    g_key_file_get_boolean (g_key_file_set_boolean kf group key v) group key = v := by
  simp [g_key_file_get_boolean, g_key_file_set_boolean, List.lookup]

/-- Appending distinct suffixes to the same string yields distinct strings. -/
theorem string_append_right_ne (a b c : String) (h : b ≠ c) : a ++ b ≠ a ++ c := by
  intro he
  apply h
  have hd := congrArg String.data he
  simp only [String.data_append] at hd
  exact String.ext (List.append_cancel_left hd)

/-- `generateError` keeps distinct underlying messages distinct. -/
theorem generateError_message_ne (e1 e2 : GError) (c : Option CallerInfo)
    (h : e1.message ≠ e2.message) :
    generateError (some e1) c ≠ generateError (some e2) c := by
  cases c with
  | none => simpa [generateError, ConvertGError] using h
  | some ci =>
    simp only [generateError, ConvertGError]
    exact string_append_right_ne _ _ _ h

/-- C3: on an open handle with a succeeding config write, a second
`enableTombstoneCommits` call leaves the configuration exactly as after the
first call, performs zero writes and returns no error; and the first call
writes iff `core.tombstone-commits` was not already true. -/
theorem enableTombstoneCommits_idempotent (r : Option Repo) (config : GKeyFile)
    (werr : GError) (c : Option CallerInfo) (hr : isInitialized r = true) :
    (enableTombstoneCommits r (enableTombstoneCommits r config true werr c).2.1
        true werr c).2.1 = (enableTombstoneCommits r config true werr c).2.1 ∧
    (enableTombstoneCommits r (enableTombstoneCommits r config true werr c).2.1
        true werr c).2.2 = 0 ∧
    (enableTombstoneCommits r (enableTombstoneCommits r config true werr c).2.1
        true werr c).1 = none ∧
    (enableTombstoneCommits r config true werr c).2.2 =
      (if g_key_file_get_boolean config "core" "tombstone-commits" then 0 else 1) := by
  by_cases hb : g_key_file_get_boolean config "core" "tombstone-commits" = true
  · simp [enableTombstoneCommits, hr, hb]
  · simp only [Bool.not_eq_true] at hb
    simp [enableTombstoneCommits, hr, hb, g_key_file_get_set]

/-- C3 witness: a fresh open handle over an empty configuration. -/
theorem enableTombstoneCommits_idempotent_witness :
    isInitialized (some ⟨some 1⟩) = true ∧
    ((enableTombstoneCommits (some ⟨some 1⟩)
        (enableTombstoneCommits (some ⟨some 1⟩) [] true testGError none).2.1
        true testGError none).2.1 =
      (enableTombstoneCommits (some ⟨some 1⟩) [] true testGError none).2.1 ∧
    (enableTombstoneCommits (some ⟨some 1⟩)
        (enableTombstoneCommits (some ⟨some 1⟩) [] true testGError none).2.1
        true testGError none).2.2 = 0 ∧
    (enableTombstoneCommits (some ⟨some 1⟩)
        (enableTombstoneCommits (some ⟨some 1⟩) [] true testGError none).2.1
        true testGError none).1 = none ∧
    (enableTombstoneCommits (some ⟨some 1⟩) [] true testGError none).2.2 =
      (if g_key_file_get_boolean [] "core" "tombstone-commits" then 0 else 1)) :=
  ⟨by decide, enableTombstoneCommits_idempotent (some ⟨some 1⟩) [] testGError none
    (by decide)⟩

/-- A ref store fixture with no resolvable refspecs, used by witnesses. -/
def testStore : String → Option String := fun _ => none

/-- C4: against the spec-modelled resolve engine, on an open handle a refspec
absent from the store resolves to the empty string with no error when
`allowNoent` is true, and to the wrapped engine not-found diagnostic
(ResolveFailed) when it is false. -/
theorem resolveRev_allowMissing (store : String → Option String) (missErr : GError)
    (repo : Option Repo) (refspec : String) (c : Option CallerInfo)
    (hr : isInitialized repo = true) (hmiss : store refspec = none) :
    (ResolveRev (specResolveEngine store missErr) repo refspec true c).1 = ("", none) ∧
    (ResolveRev (specResolveEngine store missErr) repo refspec false c).1 =
      ("", some (generateError (some missErr) c)) := by
  constructor <;> simp [ResolveRev, specResolveEngine, hmiss, gobool, goString]

/-- C4 witness: an open handle and an empty ref store. -/
theorem resolveRev_allowMissing_witness :
    (isInitialized (some ⟨some 1⟩) = true ∧ testStore "nosuch" = none) ∧
    ((ResolveRev (specResolveEngine testStore testGError) (some ⟨some 1⟩)
        "nosuch" true none).1 = ("", none) ∧
      (ResolveRev (specResolveEngine testStore testGError) (some ⟨some 1⟩)
        "nosuch" false none).1 = ("", some (generateError (some testGError) none))) :=
  ⟨⟨by decide, rfl⟩,
    resolveRev_allowMissing testStore testGError (some ⟨some 1⟩) "nosuch" none
      (by decide) rfl⟩

/-- C8: against the spec-modelled pull engine, triggering the cancellation
token yields the wrapped cancelled diagnostic, which differs from successful
completion (no error) and — whenever the genuine transfer diagnostic's
message differs from the cancelled one, as the engine's error model
guarantees — from the wrapped transfer-failure (PullFailed) error. -/
theorem pull_cancellation_distinct (repo : Option Repo) (remote : String)
    (opts : PullOptions) (prog : Option AsyncProgress) (cancel : Option Nat)
    (c : Option CallerInfo) (failErr : GError)
    (hmsg : failErr.message ≠ cancelledGError.message) :
    (PullWithOptions (specPullEngine true none) repo remote opts prog cancel c).1 =
      some (generateError (some cancelledGError) c) ∧
    (PullWithOptions (specPullEngine false (some failErr)) repo remote opts prog cancel c).1 =
      some (generateError (some failErr) c) ∧
    (PullWithOptions (specPullEngine false none) repo remote opts prog cancel c).1 = none ∧
    (PullWithOptions (specPullEngine true none) repo remote opts prog cancel c).1 ≠
      (PullWithOptions (specPullEngine false none) repo remote opts prog cancel c).1 ∧
    (PullWithOptions (specPullEngine true none) repo remote opts prog cancel c).1 ≠
      (PullWithOptions (specPullEngine false (some failErr)) repo remote opts prog cancel c).1 := by
  have hc : (PullWithOptions (specPullEngine true none) repo remote opts prog cancel c).1 =
      some (generateError (some cancelledGError) c) := by
    simp [PullWithOptions, specPullEngine, gobool]
  have hf : (PullWithOptions (specPullEngine false (some failErr)) repo remote opts
      prog cancel c).1 = some (generateError (some failErr) c) := by
    simp [PullWithOptions, specPullEngine, gobool]
  have ho : (PullWithOptions (specPullEngine false none) repo remote opts prog cancel c).1 =
      none := by
    simp [PullWithOptions, specPullEngine, gobool]
  refine ⟨hc, hf, ho, ?_, ?_⟩
  · rw [hc, ho]
    simp
  · rw [hc, hf]
    intro he
    exact generateError_message_ne cancelledGError failErr c
      (fun hm => hmsg hm.symm) (Option.some.inj he)

/-- C8 witness: a concrete session whose transfer diagnostic differs from the
cancelled one. -/
theorem pull_cancellation_distinct_witness :
    testGError.message ≠ cancelledGError.message ∧
    ((PullWithOptions (specPullEngine true none) none "origin" ⟨"", []⟩ none none none).1 =
      some (generateError (some cancelledGError) none) ∧
    (PullWithOptions (specPullEngine false (some testGError)) none "origin" ⟨"", []⟩
      none none none).1 = some (generateError (some testGError) none) ∧
    (PullWithOptions (specPullEngine false none) none "origin" ⟨"", []⟩ none none none).1 =
      none ∧
    (PullWithOptions (specPullEngine true none) none "origin" ⟨"", []⟩ none none none).1 ≠
      (PullWithOptions (specPullEngine false none) none "origin" ⟨"", []⟩ none none none).1 ∧
    (PullWithOptions (specPullEngine true none) none "origin" ⟨"", []⟩ none none none).1 ≠
      (PullWithOptions (specPullEngine false (some testGError)) none "origin" ⟨"", []⟩
        none none none).1) :=
  ⟨by decide, pull_cancellation_distinct none "origin" ⟨"", []⟩ none none none testGError
    (by decide)⟩

/-- C9: when `core.tombstone-commits` is absent from the configuration,
`enableTombstoneCommits` on an open handle treats it as false: it performs
one config write, returns no error, and the resulting configuration reads the
key as true. -/
theorem tombstone_absent_key_writes (r : Option Repo) (config : GKeyFile)
    (werr : GError) (c : Option CallerInfo) (hr : isInitialized r = true)
    (habs : config.lookup ("core", "tombstone-commits") = none) :
    enableTombstoneCommits r config true werr c =
      (none, g_key_file_set_boolean config "core" "tombstone-commits" true, 1) ∧
    g_key_file_get_boolean (enableTombstoneCommits r config true werr c).2.1
      "core" "tombstone-commits" = true := by
  have hget : g_key_file_get_boolean config "core" "tombstone-commits" = false := by
    simp [g_key_file_get_boolean, habs]
  constructor
  · simp [enableTombstoneCommits, hr, hget]
  · simp [enableTombstoneCommits, hr, hget, g_key_file_get_set]

/-- C9 witness: an open handle over a configuration with no entries. -/
theorem tombstone_absent_key_writes_witness :
    (isInitialized (some ⟨some 1⟩) = true ∧
      ([] : GKeyFile).lookup ("core", "tombstone-commits") = none) ∧
    (enableTombstoneCommits (some ⟨some 1⟩) [] true testGError none =
      (none, g_key_file_set_boolean [] "core" "tombstone-commits" true, 1) ∧
    g_key_file_get_boolean
      (enableTombstoneCommits (some ⟨some 1⟩) [] true testGError none).2.1
      "core" "tombstone-commits" = true) :=
  ⟨⟨by decide, rfl⟩,
    tombstone_absent_key_writes (some ⟨some 1⟩) [] testGError none (by decide) rfl⟩

/-- C10: `PullWithOptions` with a nil progress argument passes a NULL native
progress pointer to the engine, and — for any engine whose response does not
depend on the progress pointer — returns exactly the same result as the same
call with any non-nil progress sink. -/
theorem pull_nil_progress (eng : PullEngine) (repo : Option Repo) (remote : String)
    (opts : PullOptions) (cancel : Option Nat) (c : Option CallerInfo)
    (ap : AsyncProgress)
    (hprog : ∀ rp rn op p1 p2 cn, eng ⟨rp, rn, op, p1, cn⟩ = eng ⟨rp, rn, op, p2, cn⟩) :
    (PullWithOptions eng repo remote opts none cancel c).2.map PullEngineCall.progressPtr =
      [none] ∧
    (PullWithOptions eng repo remote opts none cancel c).1 =
      (PullWithOptions eng repo remote opts (some ap) cancel c).1 := by
  constructor
  · unfold PullWithOptions
    dsimp only
    split <;> rfl
  · have he := hprog (Repo.native repo) remote (serializePullOptions opts)
      (AsyncProgress.native none) (AsyncProgress.native (some ap)) cancel
    unfold PullWithOptions
    dsimp only
    rw [he]
    split <;> rfl

/-- C10 witness: a progress-indifferent engine and an arbitrary sink. -/
theorem pull_nil_progress_witness :
    (∀ rp rn op p1 p2 cn, testPullEngine ⟨rp, rn, op, p1, cn⟩ =
      testPullEngine ⟨rp, rn, op, p2, cn⟩) ∧
    ((PullWithOptions testPullEngine none "origin" ⟨"", []⟩ none none
        none).2.map PullEngineCall.progressPtr = [none] ∧
      (PullWithOptions testPullEngine none "origin" ⟨"", []⟩ none none none).1 =
        (PullWithOptions testPullEngine none "origin" ⟨"", []⟩ (some ⟨5⟩) none none).1) :=
  ⟨fun _ _ _ _ _ _ => rfl,
    pull_nil_progress testPullEngine none "origin" ⟨"", []⟩ none none ⟨5⟩
      (fun _ _ _ _ _ _ => rfl)⟩

end OstreeGo
